import Mathlib

/-!
Verification of the emotional-fingerprint core of `emotional_fingerprint.py`.

The core pipeline (normalize → weighted combination → bucketize) is embedded
shallowly: Python floats become rationals (`ℚ`), the input dictionary of
optional audio features becomes a structure of `Option` fields, and the
per-field `dict.get(key, default)` fallbacks become `Option.getD`.
-/

namespace EmotionalFingerprint

/-- Input record for `compute_fingerprint` (lines 120-129 of the source):
each field of the Spotify audio-features dictionary may be absent. -/
structure AudioFeatures where
  tempo : Option ℚ
  danceability : Option ℚ
  energy : Option ℚ
  valence : Option ℚ
  loudness : Option ℚ
  time_signature : Option ℤ
  key : Option ℤ
  mode : Option ℤ
  acousticness : Option ℚ
  instrumentalness : Option ℚ
deriving DecidableEq

/-- Output record (source lines 71-77): five categorical labels. -/
structure Fingerprint where
  energy : String
  valence : String
  intensity : String
  complexity : String
  size : String
deriving DecidableEq

/-- Source lines 80-82: `clamp(x, low, high) = max(low, min(x, high))`.
The Python defaults `low=0.0, high=1.0` are passed explicitly at call sites. -/
def clamp (x low high : ℚ) : ℚ :=
  max low (min x high)

/-- Source lines 84-88: affine normalization of `x` from `[low, high]` to
`[0, 1]`, clamped; returns `0` when `high == low`. -/
def normalize_range (x low high : ℚ) : ℚ :=
  if high = low then 0
  else clamp ((x - low) / (high - low)) 0 1

/-- Source lines 90-97: three-way bucketing of a score by thresholds
`t1`, `t2` (Python defaults `t1=0.33, t2=0.66` passed explicitly). -/
def bucket_3 (x : ℚ) (labels : String × String × String) (t1 t2 : ℚ) : String :=
  if x < t1 then labels.1
  else if x < t2 then labels.2.1
  else labels.2.2

/-- Source line 132: `tempo_n = normalize_range(tempo, 50.0, 200.0)`,
with the fallback `tempo = 0.0` of line 120. -/
def tempo_n (af : AudioFeatures) : ℚ :=
  normalize_range (af.tempo.getD 0) 50 200

/-- Source line 133: `loudness_n = normalize_range(loudness, -30.0, 0.0)`,
with the fallback `loudness = -60.0` of line 124. -/
def loudness_n (af : AudioFeatures) : ℚ :=
  normalize_range (af.loudness.getD (-60)) (-30) 0

/-- Source line 136: energy dimension score. -/
def energy_score (af : AudioFeatures) : ℚ :=
  clamp (0.45 * af.energy.getD 0 + 0.35 * tempo_n af + 0.20 * af.danceability.getD 0) 0 1

/-- Source line 140: valence dimension score. -/
def valence_score (af : AudioFeatures) : ℚ :=
  clamp (0.85 * af.valence.getD 0 + 0.15 * tempo_n af) 0 1

/-- Source line 144: intensity dimension score. -/
def intensity_score (af : AudioFeatures) : ℚ :=
  clamp (0.45 * af.energy.getD 0 + 0.35 * loudness_n af + 0.20 * tempo_n af) 0 1

/-- Source lines 152-157: raw complexity, built from time signature, mode
and key (with the fallbacks 4, 1, 0 of lines 125-127). -/
def complexity_raw (af : AudioFeatures) : ℚ :=
  (if af.time_signature.getD 4 = 3 ∨ af.time_signature.getD 4 = 4 then 0.25 else 0.65)
  + (if af.mode.getD 1 = 0 then 0.15 else 0)
  + (if af.key.getD 0 = -1 then 0.1 else 0)

/-- Source line 159: clamped complexity score. -/
def complexity_score (af : AudioFeatures) : ℚ :=
  clamp (complexity_raw af) 0 1

/-- Source line 166: size dimension score. -/
def size_score (af : AudioFeatures) : ℚ :=
  clamp (0.55 * (1 - af.acousticness.getD 0) + 0.25 * (1 - af.instrumentalness.getD 0)
    + 0.20 * af.valence.getD 0) 0 1

/-- Source lines 109-175: the full pipeline, assembling the five bucketed
labels (lines 137, 141, 145, 160, 167, 169-175). -/
def compute_fingerprint (af : AudioFeatures) : Fingerprint :=
  { energy := bucket_3 (energy_score af) ("low energy", "medium energy", "high energy") 0.33 0.66
    valence := bucket_3 (valence_score af)
      ("negative valence", "neutral valence", "positive valence") 0.33 0.66
    intensity := bucket_3 (intensity_score af)
      ("low intensity", "medium intensity", "high intensity") 0.33 0.66
    complexity := bucket_3 (complexity_score af)
      ("low complexity", "medium complexity", "high complexity") 0.40 0.70
    size := bucket_3 (size_score af) ("small size", "medium size", "large size") 0.33 0.66 }

/-- The input record with every absent field replaced by its documented
fallback (source lines 120-129). -/
def with_fallbacks (af : AudioFeatures) : AudioFeatures :=
  { tempo := some (af.tempo.getD 0)
    danceability := some (af.danceability.getD 0)
    energy := some (af.energy.getD 0)
    valence := some (af.valence.getD 0)
    loudness := some (af.loudness.getD (-60))
    time_signature := some (af.time_signature.getD 4)
    key := some (af.key.getD 0)
    mode := some (af.mode.getD 1)
    acousticness := some (af.acousticness.getD 0)
    instrumentalness := some (af.instrumentalness.getD 0) }

/-- Batch evaluation of the core over a list of descriptor records,
modelling the per-track loop of `main` (source lines 211-235) with the
surrounding I/O glue stripped away. -/
def process_tracks (l : List AudioFeatures) : List Fingerprint :=
  l.map compute_fingerprint

/-- Scenario A of the spec: all ten fields present. -/
def scenarioA : AudioFeatures :=
  { tempo := some 120
    danceability := some 0.5
    energy := some 0.5
    valence := some 0.5
    loudness := some (-15)
    time_signature := some 4
    key := some 0
    mode := some 1
    acousticness := some 0.5
    instrumentalness := some 0.5 }

/-- Scenario C of the spec: odd meter, minor mode, undetected key; the
remaining fields are absent. -/
def scenarioC : AudioFeatures :=
  { tempo := none
    danceability := none
    energy := none
    valence := none
    loudness := none
    time_signature := some 5
    key := some (-1)
    mode := some 0
    acousticness := none
    instrumentalness := none }

/-- Any value clamped to `[0, 1]` lies in `[0, 1]`. -/
lemma clamp_zero_one_bounds (x : ℚ) : 0 ≤ clamp x 0 1 ∧ clamp x 0 1 ≤ 1 :=
  ⟨le_max_left 0 _, max_le (by norm_num) (min_le_right x 1)⟩

/-- Claim C1: for every input record (after per-field fallbacks), the four
weighted-sum dimensions of `compute_fingerprint` are exactly the spec's
formulas — `tempo_n = normalize_range(tempo, 50, 200)`,
`loudness_n = normalize_range(loudness, -30, 0)`,
energy `0.45·energy + 0.35·tempo_n + 0.20·danceability`,
valence `0.85·valence + 0.15·tempo_n`,
intensity `0.45·energy + 0.35·loudness_n + 0.20·tempo_n`,
size `0.55·(1−acousticness) + 0.25·(1−instrumentalness) + 0.20·valence` —
each clamped to `[0, 1]` and bucketed with the default thresholds
`t1 = 0.33`, `t2 = 0.66` and the stated label triples. -/
theorem c1_weighted_scores (af : AudioFeatures) :
    (compute_fingerprint af).energy =
      bucket_3 (clamp (0.45 * af.energy.getD 0
          + 0.35 * normalize_range (af.tempo.getD 0) 50 200
          + 0.20 * af.danceability.getD 0) 0 1)
        ("low energy", "medium energy", "high energy") 0.33 0.66
    ∧ (compute_fingerprint af).valence =
      bucket_3 (clamp (0.85 * af.valence.getD 0
          + 0.15 * normalize_range (af.tempo.getD 0) 50 200) 0 1)
        ("negative valence", "neutral valence", "positive valence") 0.33 0.66
    ∧ (compute_fingerprint af).intensity =
      bucket_3 (clamp (0.45 * af.energy.getD 0
          + 0.35 * normalize_range (af.loudness.getD (-60)) (-30) 0
          + 0.20 * normalize_range (af.tempo.getD 0) 50 200) 0 1)
        ("low intensity", "medium intensity", "high intensity") 0.33 0.66
    ∧ (compute_fingerprint af).size =
      bucket_3 (clamp (0.55 * (1 - af.acousticness.getD 0)
          + 0.25 * (1 - af.instrumentalness.getD 0)
          + 0.20 * af.valence.getD 0) 0 1)
        ("small size", "medium size", "large size") 0.33 0.66 :=
  ⟨rfl, rfl, rfl, rfl⟩

/-- Claim C2: for every input record the complexity score is the clamp of
base `0.25` when the time signature is `3` or `4` and `0.65` otherwise,
plus `0.15` when `mode = 0`, plus `0.10` when `key = -1`, bucketed with
the overridden thresholds `t1 = 0.40`, `t2 = 0.70`; in particular
`time_signature = 5`, `mode = 0`, `key = -1` yields score `0.90` and the
label "high complexity". -/
theorem c2_complexity_dimension (af : AudioFeatures) :
    ((compute_fingerprint af).complexity =
      bucket_3 (clamp ((if af.time_signature.getD 4 = 3 ∨ af.time_signature.getD 4 = 4
            then 0.25 else 0.65)
          + (if af.mode.getD 1 = 0 then 0.15 else 0)
          + (if af.key.getD 0 = -1 then 0.1 else 0)) 0 1)
        ("low complexity", "medium complexity", "high complexity") 0.40 0.70)
    ∧ complexity_score scenarioC = 0.90
    ∧ (compute_fingerprint scenarioC).complexity = "high complexity" := by
  refine ⟨rfl, ?_, ?_⟩
  · norm_num [complexity_score, complexity_raw, clamp, scenarioC, min_def, max_def]
  · norm_num [compute_fingerprint, bucket_3, complexity_score, complexity_raw, clamp,
      scenarioC, min_def, max_def]

/-- Claim C3 fails as stated: on Scenario A the energy score is
`293/600 ≈ 0.4883`, below `0.53` and hence not `≈ 0.5383`, and the
intensity score is `37/75 ≈ 0.4933`, below `0.51` and hence not
`≈ 0.5183`. -/
theorem c3_counterexample :
    energy_score scenarioA = 293 / 600 ∧ ¬ (0.53 ≤ energy_score scenarioA)
    ∧ intensity_score scenarioA = 37 / 75 ∧ ¬ (0.51 ≤ intensity_score scenarioA) := by
  norm_num [energy_score, intensity_score, tempo_n, loudness_n, normalize_range, clamp,
    scenarioA, min_def, max_def]

/-- Claim C3 (amended): on Scenario A `compute_fingerprint` produces
`tempo_n = 7/15 ≈ 0.4667`, `loudness_n = 0.5`,
`energy_score = 293/600 ≈ 0.4883`, `valence_score = 0.495`,
`intensity_score = 37/75 ≈ 0.4933`, complexity score `0.25`,
`size_score = 0.5`, and the labels "medium energy", "neutral valence",
"medium intensity", "low complexity", "medium size". -/
theorem c3_scenarioA :
    tempo_n scenarioA = 7 / 15
    ∧ loudness_n scenarioA = 1 / 2
    ∧ energy_score scenarioA = 293 / 600
    ∧ valence_score scenarioA = 99 / 200
    ∧ intensity_score scenarioA = 37 / 75
    ∧ complexity_score scenarioA = 0.25
    ∧ size_score scenarioA = 0.5
    ∧ compute_fingerprint scenarioA =
      { energy := "medium energy", valence := "neutral valence", intensity := "medium intensity",
        complexity := "low complexity", size := "medium size" } := by
  refine ⟨?_, ?_, ?_, ?_, ?_, ?_, ?_, ?_⟩ <;>
    norm_num [compute_fingerprint, bucket_3, energy_score, valence_score, intensity_score,
      complexity_score, complexity_raw, size_score, tempo_n, loudness_n, normalize_range, clamp,
      scenarioA, min_def, max_def]

/-- Claim C4: `compute_fingerprint` is total — the embedding returns a
`Fingerprint` for every record, with no error case in its type — and
replacing each absent field by its documented fallback before the
computation changes nothing; the all-absent record resolves to exactly
the documented fallback values (tempo 0, danceability 0, energy 0,
valence 0, loudness -60, time_signature 4, key 0, mode 1, acousticness 0,
instrumentalness 0). Out-of-range field values are plain rationals flowing
through the same arithmetic and clamp, never rejected. -/
theorem c4_total_fallbacks (af : AudioFeatures) :
    compute_fingerprint (with_fallbacks af) = compute_fingerprint af
    ∧ with_fallbacks ⟨none, none, none, none, none, none, none, none, none, none⟩
      = ⟨some 0, some 0, some 0, some 0, some (-60), some 4, some 0, some 1, some 0, some 0⟩ :=
  ⟨rfl, rfl⟩

/-- Claim C5: for every input record, each of the five intermediate
dimension scores lies in the closed interval `[0, 1]`. -/
theorem c5_scores_unit_interval (af : AudioFeatures) :
    (0 ≤ energy_score af ∧ energy_score af ≤ 1)
    ∧ (0 ≤ valence_score af ∧ valence_score af ≤ 1)
    ∧ (0 ≤ intensity_score af ∧ intensity_score af ≤ 1)
    ∧ (0 ≤ complexity_score af ∧ complexity_score af ≤ 1)
    ∧ (0 ≤ size_score af ∧ size_score af ≤ 1) :=
  ⟨clamp_zero_one_bounds _, clamp_zero_one_bounds _, clamp_zero_one_bounds _,
    clamp_zero_one_bounds _, clamp_zero_one_bounds _⟩

/-- Claim C6 fails as stated: with the degenerate label triple
`("x", "x", "y")` and the default thresholds (which satisfy
`t1 ≤ t2`), `bucket_3 0` returns the triple's mid label even though
`t1 ≤ 0 ∧ 0 < t2` is false, refuting "returns the mid label iff
t1 <= score < t2" for arbitrary label triples. -/
theorem c6_counterexample :
    (0.33 : ℚ) ≤ 0.66
    ∧ bucket_3 0 ("x", "x", "y") 0.33 0.66 = ("x", "x", "y").2.1
    ∧ ¬ ((0.33 : ℚ) ≤ 0 ∧ (0 : ℚ) < 0.66) := by
  norm_num [bucket_3]

/-- Claim C6 (amended): for every score and every pairwise-distinct label
triple with thresholds `t1 ≤ t2`, `bucket_3` returns the low label iff
`score < t1`, the mid label iff `t1 ≤ score < t2`, and the high label iff
`score ≥ t2`; a score equal to a threshold falls into the higher bucket,
so `bucket_3 0.33` with the defaults returns the mid label and
`bucket_3 0.66` the high label. -/
theorem c6_bucket_spec (x t1 t2 : ℚ) (a b c : String)
    (ht : t1 ≤ t2) (hab : a ≠ b) (hac : a ≠ c) (hbc : b ≠ c) :
    (bucket_3 x (a, b, c) t1 t2 = a ↔ x < t1)
    ∧ (bucket_3 x (a, b, c) t1 t2 = b ↔ t1 ≤ x ∧ x < t2)
    ∧ (bucket_3 x (a, b, c) t1 t2 = c ↔ t2 ≤ x)
    ∧ bucket_3 0.33 (a, b, c) 0.33 0.66 = b
    ∧ bucket_3 0.66 (a, b, c) 0.33 0.66 = c := by
  by_cases h1 : x < t1
  · have h2 : x < t2 := lt_of_lt_of_le h1 ht
    simp [bucket_3, h1, h2, hab, hac, not_le.mpr h1]
    norm_num
  · by_cases h2 : x < t2
    · simp [bucket_3, h1, h2, hab.symm, hbc, not_lt.mp h1]
      norm_num
    · simp [bucket_3, h1, h2, hac.symm, hbc.symm, not_lt.mp h2]
      norm_num

/-- Witness for C6 at `x = 0.2` with distinct labels and the default
thresholds. -/
theorem c6_witness : bucket_3 0.2 ("a", "b", "c") 0.33 0.66 = "a" :=
  (c6_bucket_spec 0.2 0.33 0.66 "a" "b" "c" (by norm_num) (by decide) (by decide)
    (by decide)).1.mpr (by norm_num)

/-- Claim C7: for `low < high`, `normalize_range x low high` equals
`(x - low) / (high - low)` clamped to `[0, 1]`, lies in `[0, 1]`, and maps
the endpoints to `0` and `1`; on a degenerate interval it returns `0` for
every input instead of signaling a fault. -/
theorem c7_normalize_spec (x low high y v : ℚ) (h : low < high) :
    normalize_range x low high = clamp ((x - low) / (high - low)) 0 1
    ∧ 0 ≤ normalize_range x low high ∧ normalize_range x low high ≤ 1
    ∧ normalize_range low low high = 0
    ∧ normalize_range high low high = 1
    ∧ normalize_range y v v = 0 := by
  have hne : high ≠ low := ne_of_gt h
  have hd : high - low ≠ 0 := sub_ne_zero.mpr hne
  refine ⟨by simp [normalize_range, hne], ?_, ?_, ?_, ?_, by simp [normalize_range]⟩
  · rw [show normalize_range x low high = clamp ((x - low) / (high - low)) 0 1 from
      by simp [normalize_range, hne]]
    exact (clamp_zero_one_bounds _).1
  · rw [show normalize_range x low high = clamp ((x - low) / (high - low)) 0 1 from
      by simp [normalize_range, hne]]
    exact (clamp_zero_one_bounds _).2
  · simp [normalize_range, hne, clamp, min_def, max_def]
  · simp [normalize_range, hne, div_self hd, clamp, min_def, max_def]

/-- Witness for C7 on the interval `[0, 4]` and the degenerate interval
`[7, 7]`. -/
theorem c7_witness : normalize_range 0 0 4 = 0 ∧ normalize_range 5 7 7 = 0 :=
  ⟨(c7_normalize_spec 2 0 4 5 7 (by norm_num)).2.2.2.1,
   (c7_normalize_spec 2 0 4 5 7 (by norm_num)).2.2.2.2.2⟩

/-- Claim C8: `compute_fingerprint` is deterministic and pure. In this
embedding it is a function of the input record alone, so batch processing
decomposes pointwise — each track's fingerprint is independent of the
tracks before and after it — and permuting the batch permutes the results
identically, with no hidden state, history, or ordering dependence. -/
theorem c8_pure_batch (pre post u w : List AudioFeatures) (af : AudioFeatures)
    (h : u.Perm w) :
    process_tracks (pre ++ af :: post)
      = process_tracks pre ++ compute_fingerprint af :: process_tracks post
    ∧ (process_tracks u).Perm (process_tracks w) :=
  ⟨by simp [process_tracks], h.map compute_fingerprint⟩

/-- Witness for C8 on a concrete two-track batch. -/
theorem c8_witness :
    process_tracks ([scenarioA] ++ scenarioC :: [])
      = process_tracks [scenarioA] ++ compute_fingerprint scenarioC :: process_tracks []
    ∧ (process_tracks [scenarioA, scenarioC]).Perm (process_tracks [scenarioC, scenarioA]) :=
  c8_pure_batch [scenarioA] [] [scenarioA, scenarioC] [scenarioC, scenarioA] scenarioC
    (List.Perm.swap scenarioC scenarioA [])

/-- Claim C9: whenever the post-fallback time signature is `3` or `4`, the
complexity score is at most `0.5 < 0.70`, so the fingerprint never carries
the label "high complexity" for common meters, regardless of every other
field. -/
theorem c9_common_meter_not_high (af : AudioFeatures)
    (h : af.time_signature.getD 4 = 3 ∨ af.time_signature.getD 4 = 4) :
    complexity_score af ≤ 0.5 ∧ (compute_fingerprint af).complexity ≠ "high complexity" := by
  have hraw : complexity_raw af ≤ 0.5 := by
    unfold complexity_raw
    rw [if_pos h]
    split <;> split <;> norm_num
  have hscore : complexity_score af ≤ 0.5 := by
    unfold complexity_score clamp
    exact max_le (by norm_num) (le_trans (min_le_left _ _) hraw)
  refine ⟨hscore, ?_⟩
  have hlt : complexity_score af < 0.70 := lt_of_le_of_lt hscore (by norm_num)
  show bucket_3 (complexity_score af)
      ("low complexity", "medium complexity", "high complexity") 0.40 0.70 ≠ "high complexity"
  by_cases hx : complexity_score af < 0.40
  · simp [bucket_3, hx]
  · simp [bucket_3, hx, hlt]

/-- Witness for C9 at Scenario A, whose time signature is `4`. -/
theorem c9_witness :
    complexity_score scenarioA ≤ 0.5
    ∧ (compute_fingerprint scenarioA).complexity ≠ "high complexity" :=
  c9_common_meter_not_high scenarioA (Or.inr rfl)

/-- Claim C10: when the bounds are inverted (`high < low`),
`clamp x low high = max low (min x high)` returns `low` for every `x`,
staying total with a constant defined value. -/
theorem c10_clamp_inverted (x low high : ℚ) (h : high < low) : clamp x low high = low := by
  unfold clamp
  exact max_eq_left (le_of_lt (lt_of_le_of_lt (min_le_right x high) h))

/-- Witness for C10 at `clamp 5 3 1`. -/
theorem c10_witness : clamp 5 3 1 = 3 :=
  c10_clamp_inverted 5 3 1 (by norm_num)

end EmotionalFingerprint
